import Mathlib

/-!
Verification of the agronomic recommendation core of the `agri` dashboard
(`src/app.py`): irrigation volume, soil-texture classification, NDVI-based
fertilizer/pesticide banding, current-precipitation lookup, and the
agro-shop name filter.  Numeric values are modelled as rationals; fallible
lookups return `Option`.  HTTP calls are modelled by passing the response
(status code and decoded payload) as an argument.
-/

namespace Agri

/-! §1  String primitives mirroring Python's `str` operations. -/

/-- `leadsWith pat s` is true when `pat` occurs at the very start of `s`
(the character-list analogue of Python's `s.startswith(pat)`). -/
def leadsWith : List Char → List Char → Bool
  | [], _ => true
  | _ :: _, [] => false
  | p :: ps, c :: cs => p == c && leadsWith ps cs

/-- `containsSeq pat s` is true when `pat` occurs contiguously anywhere in
`s`: the analogue of Python's substring test `pat in s`. -/
def containsSeq (pat : List Char) : List Char → Bool
  | [] => pat.isEmpty
  | c :: cs => leadsWith pat (c :: cs) || containsSeq pat cs

/-- Python's `pat in s` on strings. -/
def strContainsSub (s pat : String) : Bool :=
  containsSeq pat.toList s.toList

/-- Python's `s.lower()`. -/
def strLower (s : String) : String :=
  String.mk (s.toList.map Char.toLower)

/-- Python's `s.strip()`: drop whitespace from both ends. -/
def pyStrip (s : String) : String :=
  String.mk (((s.toList.dropWhile Char.isWhitespace).reverse.dropWhile
    Char.isWhitespace).reverse)

/-! §2  Irrigation recommendation (`show_main_app`, src/app.py 432-433).

`avg_rain = np.mean(hourly_precip[-3:]) if hourly_precip and
len(hourly_precip) >= 3 else current_precip`;
`irrigation_req = max(0, 25 + (temp - 20) - avg_rain)`. -/

/-- The irrigation rule of `show_main_app`.  `hourly_precip[-3:]` is
`drop (length - 3)` and `np.mean` divides the slice's sum by its length. -/
def recommendIrrigation (temp current_precip : ℚ) (hourly_precip : List ℚ) : ℚ :=
  let avg_rain : ℚ :=
    if hourly_precip ≠ [] ∧ 3 ≤ hourly_precip.length then
      let slice := hourly_precip.drop (hourly_precip.length - 3)
      slice.sum / (slice.length : ℚ)
    else current_precip
  max 0 (25 + (temp - 20) - avg_rain)

/-- The average-rain term exactly as the spec words it: the mean of the last
3 entries when the sequence has at least 3 entries, and the current
precipitation otherwise.  Stated from the spec, to be compared with
`recommendIrrigation`. -/
def specAvgRain (current_precip : ℚ) (hourly_precip : List ℚ) : ℚ :=
  if 3 ≤ hourly_precip.length then
    (hourly_precip.drop (hourly_precip.length - 3)).sum / 3
  else current_precip

/-! §3  Soil classifier (`get_soil_type`, src/app.py 212-246). -/

/-- The branch chain of `get_soil_type` on the three extracted fractions
(src/app.py 237-244). -/
def classifySoilFractions (sand clay silt : ℚ) : String :=
  if sand ≥ clay ∧ sand ≥ silt then "Sandy"
  else if clay ≥ sand ∧ clay ≥ silt then "Clay"
  else if silt ≥ sand ∧ silt ≥ clay then "Silty"
  else "Loamy"

/-- One layer of the soil response: its `name` tag and, per depth entry, the
optional `values.mean` field (src/app.py reads `layer["depths"][0]`). -/
structure SoilLayer where
  name : String
  depthMeans : List (Option ℚ)

/-- The body of the loop of `get_soil_type` (src/app.py 222-234): skip the
layer when it has no depths or a missing mean, otherwise assign the mean to
whichever of sand/clay/silt the lowercased layer name mentions. -/
def updateFractions (acc : Option ℚ × Option ℚ × Option ℚ) (layer : SoilLayer) :
    Option ℚ × Option ℚ × Option ℚ :=
  match layer.depthMeans with
  | [] => acc
  | none :: _ => acc
  | some mean_val :: _ =>
    let name := strLower layer.name
    if strContainsSub name "sand" then (some mean_val, acc.2.1, acc.2.2)
    else if strContainsSub name "clay" then (acc.1, some mean_val, acc.2.2)
    else if strContainsSub name "silt" then (acc.1, acc.2.1, some mean_val)
    else acc

/-- The whole extraction loop of `get_soil_type`, starting from
`sand = clay = silt = None`. -/
def extractFractions (layers : List SoilLayer) :
    Option ℚ × Option ℚ × Option ℚ :=
  layers.foldl updateFractions (none, none, none)

/-- `get_soil_type` (src/app.py 212-246) on a response: `none` for a
non-200 status; `none` for a malformed payload (the `except` branch,
modelled by `body = none`); otherwise extract the fractions and classify,
returning `none` when any fraction is still missing. -/
def get_soil_type (status : Nat) (body : Option (List SoilLayer)) : Option String :=
  if status ≠ 200 then none
  else
    match body with
    | none => none
    | some layers =>
      let f := extractFractions layers
      match f.1, f.2.1, f.2.2 with
      | some sand, some clay, some silt => some (classifySoilFractions sand clay silt)
      | _, _, _ => none

/-! §4  Fertilizer & pesticide recommendations
(`get_fertilizer_pesticide_recommendations`, src/app.py 317-337). -/

/-- `get_fertilizer_pesticide_recommendations`: band by NDVI, then suffix
the fertilizer string with a soil-specific clause. -/
def get_fertilizer_pesticide_recommendations (ndvi : ℚ) (soil_type : String) :
    String × String :=
  let fp : String × String :=
    if ndvi < 1/2 then
      ("High NPK mix (Urea, DAP, MOP)", "Broad-spectrum insecticide (e.g., Chlorpyrifos)")
    else if ndvi < 7/10 then
      ("Moderate NPK mix (Balanced fertilizer)", "Targeted pesticide (e.g., Imidacloprid)")
    else
      ("Minimal fertilizer needed", "No pesticide required")
  let fert : String :=
    if soil_type = "Sandy" then fp.1 ++ " (Add extra organic matter & water)"
    else if soil_type = "Clay" then fp.1 ++ " (Ensure drainage, avoid overwatering)"
    else if soil_type = "Loamy" then fp.1 ++ " (Balanced approach)"
    else if soil_type = "Silty" then fp.1 ++ " (Moderate water-holding capacity)"
    else fp.1
  (fert, fp.2)

/-- The soil-specific amendment clause appended to the fertilizer string
(empty for a soil string outside the four categories). -/
def soilAmendment (soil_type : String) : String :=
  if soil_type = "Sandy" then " (Add extra organic matter & water)"
  else if soil_type = "Clay" then " (Ensure drainage, avoid overwatering)"
  else if soil_type = "Loamy" then " (Balanced approach)"
  else if soil_type = "Silty" then " (Moderate water-holding capacity)"
  else ""

/-! §5  Current-precipitation lookup (`get_weather_data`, src/app.py 190).

`current_precip = hourly_precip[hourly_times.index(current_time)] if
current_time in hourly_times else 0`.  Python's `list.index` returns the
first matching index; the list access is modelled with `get?`. -/

/-- The current-precipitation lookup of `get_weather_data`. -/
def lookupCurrentPrecip (current_time : String) (hourly_times : List String)
    (hourly_precip : List ℚ) : Option ℚ :=
  if current_time ∈ hourly_times then
    hourly_precip.get? (hourly_times.indexOf current_time)
  else some 0

/-! §6  Agro-shop filter (`get_live_shop_list`, src/app.py 268-279). -/

/-- The inclusion keyword list of `get_live_shop_list`. -/
def agroKeywords : List String :=
  ["agro", "farm", "agr", "hort", "garden", "agriculture"]

/-- The exclusion keyword list of `get_live_shop_list`. -/
def shopExclusions : List String :=
  ["clothes", "apparel", "fashion", "footwear"]

/-- The per-element filter of `get_live_shop_list` (src/app.py 273-280):
strip the name and shop tag, skip an empty name, skip names containing an
exclusion keyword, keep only elements whose lowercased name or shop tag
contains an inclusion keyword. -/
def keepShop (rawName rawShopTag : String) : Bool :=
  let name := pyStrip rawName
  let shop_tag := pyStrip rawShopTag
  if name = "" then false
  else if shopExclusions.any (fun exc => strContainsSub (strLower name) exc) then
    false
  else if !(agroKeywords.any (fun k => strContainsSub (strLower name) k) ||
      agroKeywords.any (fun k => strContainsSub (strLower shop_tag) k)) then
    false
  else true

/-! §7  Helper lemmas. -/

/-- Under a total order, one of three values is always a weak maximum of
the other two. -/
theorem some_weak_max (sand clay silt : ℚ) :
    (sand ≥ clay ∧ sand ≥ silt) ∨ (clay ≥ sand ∧ clay ≥ silt) ∨
      (silt ≥ sand ∧ silt ≥ clay) := by
  rcases le_total clay sand with hcs | hcs
  · rcases le_total silt sand with hls | hls
    · exact Or.inl ⟨hcs, hls⟩
    · exact Or.inr (Or.inr ⟨hls, le_trans hcs hls⟩)
  · rcases le_total silt clay with hlc | hlc
    · exact Or.inr (Or.inl ⟨hcs, hlc⟩)
    · exact Or.inr (Or.inr ⟨le_trans hcs hlc, hlc⟩)

/-- The fallback branch of the soil classifier never fires. -/
theorem classify_ne_loamy (sand clay silt : ℚ) :
    classifySoilFractions sand clay silt ≠ "Loamy" := by
  unfold classifySoilFractions
  split_ifs with h1 h2 h3
  · decide
  · decide
  · decide
  · rcases some_weak_max sand clay silt with h | h | h
    · exact absurd h h1
    · exact absurd h h2
    · exact absurd h h3

/-- The recommendation pair, written with the NDVI band and the soil
amendment factored out. -/
theorem get_fp_eq (ndvi : ℚ) (st : String) :
    get_fertilizer_pesticide_recommendations ndvi st =
      ((if ndvi < 1/2 then "High NPK mix (Urea, DAP, MOP)"
        else if ndvi < 7/10 then "Moderate NPK mix (Balanced fertilizer)"
        else "Minimal fertilizer needed") ++ soilAmendment st,
       if ndvi < 1/2 then "Broad-spectrum insecticide (e.g., Chlorpyrifos)"
       else if ndvi < 7/10 then "Targeted pesticide (e.g., Imidacloprid)"
       else "No pesticide required") := by
  unfold get_fertilizer_pesticide_recommendations soilAmendment
  split_ifs <;> simp [String.append_empty]

/-! §8  Claim theorems. -/

/-- Claim C1: for every temperature, current precipitation and hourly
sequence, the recommended irrigation volume is
`max(0, 25 + (T - 20) - avgRain)` with `avgRain` the mean of the last 3
entries when at least 3 exist and the current precipitation otherwise; in
particular `(T=20, P=[0,0,0])` gives 25 and `(T=30, P=[5,5,5])` gives 30. -/
theorem irrigation_formula (t c : ℚ) (p : List ℚ) :
    recommendIrrigation t c p = max 0 (25 + (t - 20) - specAvgRain c p) ∧
    recommendIrrigation 20 c [0, 0, 0] = 25 ∧
    recommendIrrigation 30 c [5, 5, 5] = 30 := by
  refine ⟨?_, by norm_num [recommendIrrigation, List.cons_ne_nil],
    by norm_num [recommendIrrigation, List.cons_ne_nil]⟩
  unfold recommendIrrigation specAvgRain
  rcases le_or_lt 3 p.length with h | h
  · have hne : p ≠ [] := by
      intro he; subst he; simp at h
    have hlen : (p.drop (p.length - 3)).length = 3 := by
      simp [List.length_drop]; omega
    simp [hne, h, hlen]
  · have hcond : ¬(p ≠ [] ∧ 3 ≤ p.length) := by
      rintro ⟨-, h3⟩; omega
    simp [hcond, not_le.mpr h]

/-- Claim C2: the recommended irrigation volume is never negative. -/
theorem irrigation_nonneg (t c : ℚ) (p : List ℚ) :
    0 ≤ recommendIrrigation t c p :=
  le_max_left 0 _

/-- Claim C3: soil classification picks the first category in the order
Sandy, Clay, Silty, Loamy whose fraction is a weak maximum of the three, so
ties resolve to the earliest-checked category; in particular
`(sand=40, clay=40, silt=20)` classifies as Sandy, not Clay. -/
theorem soil_first_weak_max (sand clay silt : ℚ) :
    (classifySoilFractions sand clay silt = "Sandy" ↔
      sand ≥ clay ∧ sand ≥ silt) ∧
    (classifySoilFractions sand clay silt = "Clay" ↔
      ¬(sand ≥ clay ∧ sand ≥ silt) ∧ (clay ≥ sand ∧ clay ≥ silt)) ∧
    (classifySoilFractions sand clay silt = "Silty" ↔
      ¬(sand ≥ clay ∧ sand ≥ silt) ∧ ¬(clay ≥ sand ∧ clay ≥ silt) ∧
        (silt ≥ sand ∧ silt ≥ clay)) ∧
    classifySoilFractions 40 40 20 = "Sandy" ∧
    classifySoilFractions 40 40 20 ≠ "Clay" := by
  have hS : classifySoilFractions 40 40 20 = "Sandy" := by
    norm_num [classifySoilFractions]
  refine ⟨?_, ?_, ?_, hS, by rw [hS]; decide⟩
  · unfold classifySoilFractions
    split_ifs with h1 h2 h3
    · simp [h1]
    · constructor
      · intro h; exact absurd h (by decide)
      · rintro h; exact absurd h h1
    · constructor
      · intro h; exact absurd h (by decide)
      · rintro h; exact absurd h h1
    · constructor
      · intro h; exact absurd h (by decide)
      · rintro h; exact absurd h h1
  · unfold classifySoilFractions
    split_ifs with h1 h2 h3
    · constructor
      · intro h; exact absurd h (by decide)
      · rintro ⟨hn, -⟩; exact absurd h1 hn
    · simp [h1, h2]
    · constructor
      · intro h; exact absurd h (by decide)
      · rintro ⟨-, hc⟩; exact absurd hc h2
    · constructor
      · intro h; exact absurd h (by decide)
      · rintro ⟨-, hc⟩; exact absurd hc h2
  · unfold classifySoilFractions
    split_ifs with h1 h2 h3
    · constructor
      · intro h; exact absurd h (by decide)
      · rintro ⟨hn, -⟩; exact absurd h1 hn
    · constructor
      · intro h; exact absurd h (by decide)
      · rintro ⟨-, hn, -⟩; exact absurd h2 hn
    · simp [h1, h2, h3]
    · constructor
      · intro h; exact absurd h (by decide)
      · rintro ⟨-, -, hc⟩; exact absurd hc h3

/-- Claim C3 witness: the tie `(40, 40, 20)` classifies as Sandy. -/
theorem soil_first_weak_max_witness :
    classifySoilFractions 40 40 20 = "Sandy" :=
  (soil_first_weak_max 40 40 20).2.2.2.1

/-- Claim C4 counterexample: at `(sand=40, clay=40, silt=20)` no fraction
strictly dominates both others, yet the classification is not Loamy (it is
Sandy), refuting the claim that such triples fall to the Loamy fallback. -/
theorem soil_fallback_counterexample :
    ¬((40 : ℚ) > 40 ∧ (40 : ℚ) > 20) ∧ ¬((40 : ℚ) > 40 ∧ (40 : ℚ) > 20) ∧
    ¬((20 : ℚ) > 40 ∧ (20 : ℚ) > 40) ∧
    classifySoilFractions 40 40 20 ≠ "Loamy" := by
  have hS : classifySoilFractions 40 40 20 = "Sandy" := by
    norm_num [classifySoilFractions]
  exact ⟨by norm_num, by norm_num, by norm_num, by rw [hS]; decide⟩

/-- Claim C4 (amended): for every triple of fractions in which no single
fraction strictly dominates both others, soil classification resolves the
tie by the fixed check order and never returns the fallback Loamy. -/
theorem soil_no_strict_dominance_not_loamy (sand clay silt : ℚ)
    (_h1 : ¬(sand > clay ∧ sand > silt)) (_h2 : ¬(clay > sand ∧ clay > silt))
    (_h3 : ¬(silt > sand ∧ silt > clay)) :
    classifySoilFractions sand clay silt ≠ "Loamy" :=
  classify_ne_loamy sand clay silt

/-- Claim C4 witness: the amended statement at `(40, 40, 20)`. -/
theorem soil_no_strict_dominance_not_loamy_witness :
    classifySoilFractions 40 40 20 ≠ "Loamy" :=
  soil_no_strict_dominance_not_loamy 40 40 20 (by norm_num) (by norm_num)
    (by norm_num)

/-- Claim C5: the recommendation falls into exactly three bands by NDVI:
below 0.5 the high-NPK fertilizer and broad-spectrum pesticide, in
`[0.5, 0.7)` the moderate fertilizer and targeted pesticide, and at or
above 0.7 minimal fertilizer and no pesticide; in particular 0.49 is in the
high band, 0.5 and 0.69 in the moderate band, and 0.7 in the minimal
band. -/
theorem ndvi_banding (ndvi : ℚ) (soil_type : String) :
    (ndvi < 1/2 →
      get_fertilizer_pesticide_recommendations ndvi soil_type =
        ("High NPK mix (Urea, DAP, MOP)" ++ soilAmendment soil_type,
         "Broad-spectrum insecticide (e.g., Chlorpyrifos)")) ∧
    (1/2 ≤ ndvi → ndvi < 7/10 →
      get_fertilizer_pesticide_recommendations ndvi soil_type =
        ("Moderate NPK mix (Balanced fertilizer)" ++ soilAmendment soil_type,
         "Targeted pesticide (e.g., Imidacloprid)")) ∧
    (7/10 ≤ ndvi →
      get_fertilizer_pesticide_recommendations ndvi soil_type =
        ("Minimal fertilizer needed" ++ soilAmendment soil_type,
         "No pesticide required")) ∧
    get_fertilizer_pesticide_recommendations (49/100) soil_type =
      ("High NPK mix (Urea, DAP, MOP)" ++ soilAmendment soil_type,
       "Broad-spectrum insecticide (e.g., Chlorpyrifos)") ∧
    get_fertilizer_pesticide_recommendations (1/2) soil_type =
      ("Moderate NPK mix (Balanced fertilizer)" ++ soilAmendment soil_type,
       "Targeted pesticide (e.g., Imidacloprid)") ∧
    get_fertilizer_pesticide_recommendations (69/100) soil_type =
      ("Moderate NPK mix (Balanced fertilizer)" ++ soilAmendment soil_type,
       "Targeted pesticide (e.g., Imidacloprid)") ∧
    get_fertilizer_pesticide_recommendations (7/10) soil_type =
      ("Minimal fertilizer needed" ++ soilAmendment soil_type,
       "No pesticide required") := by
  refine ⟨?_, ?_, ?_, ?_, ?_, ?_, ?_⟩ <;> rw [get_fp_eq]
  · intro h
    rw [if_pos h, if_pos h]
  · intro hlo hhi
    rw [if_neg (not_lt.mpr hlo), if_pos hhi, if_neg (not_lt.mpr hlo), if_pos hhi]
  · intro h
    have h2 : ¬(ndvi < 7/10) := not_lt.mpr h
    have h1 : ¬(ndvi < 1/2) := not_lt.mpr (le_trans (by norm_num) h)
    rw [if_neg h1, if_neg h2, if_neg h1, if_neg h2]
  · norm_num
  · norm_num
  · norm_num
  · norm_num

/-- Claim C5 witness: NDVI 0.49 takes the high-NPK, broad-spectrum
branch. -/
theorem ndvi_banding_witness :
    get_fertilizer_pesticide_recommendations (49/100) "Sandy" =
      ("High NPK mix (Urea, DAP, MOP)" ++ soilAmendment "Sandy",
       "Broad-spectrum insecticide (e.g., Chlorpyrifos)") :=
  (ndvi_banding (49/100) "Sandy").1 (by norm_num)

/-- Claim C6: the pesticide recommendation is soil-independent, and the
fertilizer string differs from the soil-free one only by the soil-specific
amendment clause. -/
theorem pesticide_soil_independent (ndvi : ℚ) (s1 s2 : String) :
    (get_fertilizer_pesticide_recommendations ndvi s1).2 =
      (get_fertilizer_pesticide_recommendations ndvi s2).2 ∧
    (get_fertilizer_pesticide_recommendations ndvi s1).1 =
      (get_fertilizer_pesticide_recommendations ndvi "").1 ++ soilAmendment s1 := by
  constructor
  · simp [get_fp_eq]
  · have hempty : soilAmendment "" = "" := by
      simp [soilAmendment]
    simp [get_fp_eq, hempty]

/-- Claim C7: soil classification returns the `none` sentinel exactly when
the request fails (non-200 status), the payload is malformed, or one of the
three fractions is missing after extraction; whenever all three fractions
are present it returns a category, never the sentinel. -/
theorem soil_sentinel_iff (status : Nat) (body : Option (List SoilLayer)) :
    (get_soil_type status body = none ↔
      status ≠ 200 ∨ body = none ∨
        ∃ layers, body = some layers ∧
          ((extractFractions layers).1 = none ∨ (extractFractions layers).2.1 = none ∨
           (extractFractions layers).2.2 = none)) ∧
    ∀ layers sand clay silt, status = 200 → body = some layers →
      extractFractions layers = (some sand, some clay, some silt) →
      get_soil_type status body = some (classifySoilFractions sand clay silt) := by
  constructor
  · by_cases hs : status = 200
    · cases body with
      | none => simp [get_soil_type, hs]
      | some layers =>
        rcases hE : extractFractions layers with ⟨os, oc, ol⟩
        cases os <;> cases oc <;> cases ol <;>
          simp [get_soil_type, hs, hE]
    · simp [get_soil_type, hs]
  · intro layers sand clay silt hs hb hE
    subst hs; subst hb
    simp [get_soil_type, hE]

/-- A sample successful soil response with all three fractions present. -/
def demoLayers : List SoilLayer :=
  [⟨"sand mean", [some 40]⟩, ⟨"clay mean", [some 40]⟩, ⟨"silt mean", [some 20]⟩]

/-- Claim C7 witness: on a 200 response carrying all three fractions the
classifier returns a category. -/
theorem soil_sentinel_iff_witness :
    get_soil_type 200 (some demoLayers) = some (classifySoilFractions 40 40 20) :=
  (soil_sentinel_iff 200 (some demoLayers)).2 demoLayers 40 40 20 rfl rfl
    (by decide)

/-- `List.indexOf` returns the index of the first occurrence. -/
theorem indexOf_eq_of_first {α : Type} [DecidableEq α] (a : α) :
    ∀ (l : List α) (i : ℕ) (hi : i < l.length), l.get ⟨i, hi⟩ = a →
      (∀ (j : ℕ) (hj : j < l.length), j < i → l.get ⟨j, hj⟩ ≠ a) →
      l.indexOf a = i := by
  intro l
  induction l with
  | nil =>
    intro i hi
    simp at hi
  | cons b t ih =>
    intro i hi hget hfirst
    cases i with
    | zero =>
      simp only [List.get] at hget
      subst hget
      exact List.indexOf_cons_self b t
    | succ n =>
      have hb : b ≠ a := by
        have h0 := hfirst 0 (by simp) (Nat.succ_pos n)
        simpa using h0
      rw [List.indexOf_cons_ne t hb]
      have hi' : n < t.length := by
        simpa using hi
      have hget' : t.get ⟨n, hi'⟩ = a := by
        simpa using hget
      have hfirst' : ∀ (j : ℕ) (hj : j < t.length), j < n → t.get ⟨j, hj⟩ ≠ a := by
        intro j hj hjn
        have hj1 := hfirst (j + 1) (by simpa using hj) (Nat.succ_lt_succ hjn)
        simpa using hj1
      rw [ih n hi' hget' hfirst']

/-- Claim C8: current precipitation is the hourly precipitation entry at
the first index whose hourly timestamp equals the current timestamp
exactly; when the current timestamp occurs nowhere in the hourly timestamp
sequence it defaults to 0. -/
theorem current_precip_lookup (ct : String) (times : List String)
    (precip : List ℚ) :
    (∀ (i : ℕ) (hi : i < times.length) (hip : i < precip.length),
      times.get ⟨i, hi⟩ = ct →
      (∀ (j : ℕ) (hj : j < times.length), j < i → times.get ⟨j, hj⟩ ≠ ct) →
      lookupCurrentPrecip ct times precip = some (precip.get ⟨i, hip⟩)) ∧
    (ct ∉ times → lookupCurrentPrecip ct times precip = some 0) := by
  constructor
  · intro i hi hip hget hfirst
    have hmem : ct ∈ times := by
      rw [← hget]
      exact List.get_mem times i hi
    have hidx : times.indexOf ct = i := indexOf_eq_of_first ct times i hi hget hfirst
    rw [lookupCurrentPrecip, if_pos hmem, hidx, List.get?_eq_get hip]
  · intro hmem
    rw [lookupCurrentPrecip, if_neg hmem]

/-- Claim C8 witness: the first matching timestamp wins, and a missing
timestamp gives 0. -/
theorem current_precip_lookup_witness :
    lookupCurrentPrecip "T1" ["T0", "T1", "T1"] [3, 4, 5] = some 4 ∧
    lookupCurrentPrecip "T9" ["T0", "T1", "T1"] [3, 4, 5] = some 0 :=
  ⟨by
    have hfirst : ∀ (j : ℕ) (hj : j < (["T0", "T1", "T1"] : List String).length),
        j < 1 → (["T0", "T1", "T1"] : List String).get ⟨j, hj⟩ ≠ "T1" := by
      intro j hj hjlt
      have hj0 : j = 0 := by omega
      subst hj0
      show ("T0" : String) ≠ "T1"
      decide
    have h := (current_precip_lookup "T1" ["T0", "T1", "T1"] [3, 4, 5]).1 1
      (by decide) (by decide) (by decide) hfirst
    exact h.trans (by decide),
   (current_precip_lookup "T9" ["T0", "T1", "T1"] [3, 4, 5]).2 (by decide)⟩

/-- Claim C9: the shop listing skips an element with an empty name, skips
an element whose lowercased name contains an exclusion keyword, and keeps
an element exactly when additionally its lowercased name or lowercased shop
tag contains an inclusion keyword; in particular "City Fashion Footwear"
tagged "clothes" is excluded and "Krishna Agro Center" is included. -/
theorem shop_filter (rawName rawShopTag : String) :
    (pyStrip rawName = "" → keepShop rawName rawShopTag = false) ∧
    ((∃ exc ∈ shopExclusions,
        strContainsSub (strLower (pyStrip rawName)) exc = true) →
      keepShop rawName rawShopTag = false) ∧
    (keepShop rawName rawShopTag = true ↔
      pyStrip rawName ≠ "" ∧
      (∀ exc ∈ shopExclusions,
        strContainsSub (strLower (pyStrip rawName)) exc = false) ∧
      (∃ k ∈ agroKeywords,
        strContainsSub (strLower (pyStrip rawName)) k = true ∨
        strContainsSub (strLower (pyStrip rawShopTag)) k = true)) ∧
    keepShop "City Fashion Footwear" "clothes" = false ∧
    keepShop "Krishna Agro Center" "" = true := by
  refine ⟨?_, ?_, ?_, by decide, by decide⟩
  · intro h
    simp [keepShop, h]
  · rintro ⟨exc, hmem, hc⟩
    by_cases hn : pyStrip rawName = ""
    · simp [keepShop, hn]
    · have hany : (shopExclusions.any fun e =>
          strContainsSub (strLower (pyStrip rawName)) e) = true :=
        List.any_eq_true.mpr ⟨exc, hmem, hc⟩
      simp [keepShop, hn, hany]
  · by_cases hn : pyStrip rawName = ""
    · constructor
      · intro hk
        exact absurd hk (by simp [keepShop, hn])
      · rintro ⟨hne, -⟩
        exact absurd hn hne
    · by_cases hexc : (shopExclusions.any fun e =>
          strContainsSub (strLower (pyStrip rawName)) e) = true
      · constructor
        · intro hk
          exact absurd hk (by simp [keepShop, hn, hexc])
        · rintro ⟨-, hall, -⟩
          rcases List.any_eq_true.mp hexc with ⟨e, hmem, he⟩
          rw [hall e hmem] at he
          exact (Bool.false_ne_true he).elim
      · by_cases hkw : ((agroKeywords.any fun k =>
            strContainsSub (strLower (pyStrip rawName)) k) ||
            agroKeywords.any fun k =>
            strContainsSub (strLower (pyStrip rawShopTag)) k) = true
        · constructor
          · intro _
            refine ⟨hn, ?_, ?_⟩
            · intro e hmem
              cases hB : strContainsSub (strLower (pyStrip rawName)) e with
              | false => rfl
              | true => exact absurd (List.any_eq_true.mpr ⟨e, hmem, hB⟩) hexc
            · rcases Bool.or_eq_true_iff.mp hkw with h | h
              · rcases List.any_eq_true.mp h with ⟨k, hmem, hp⟩
                exact ⟨k, hmem, Or.inl hp⟩
              · rcases List.any_eq_true.mp h with ⟨k, hmem, hp⟩
                exact ⟨k, hmem, Or.inr hp⟩
          · intro _
            simp [keepShop, hn, hexc, hkw]
        · constructor
          · intro hk
            have hfalse : keepShop rawName rawShopTag = false := by
              simp [keepShop, hn, hexc, hkw]
            rw [hfalse] at hk
            exact absurd hk (by decide)
          · rintro ⟨-, -, k, hmem, hp⟩
            exfalso
            apply hkw
            rcases hp with hp | hp
            · exact Bool.or_eq_true_iff.mpr (Or.inl (List.any_eq_true.mpr ⟨k, hmem, hp⟩))
            · exact Bool.or_eq_true_iff.mpr (Or.inr (List.any_eq_true.mpr ⟨k, hmem, hp⟩))

/-- Claim C9 witness: an element with an empty name is skipped. -/
theorem shop_filter_witness : keepShop "" "agro" = false :=
  (shop_filter "" "agro").1 (by decide)

/-- Claim C10: for every triple of fractions the classification returns one
of Sandy, Clay or Silty; the Loamy fallback branch is unreachable, since
some value is always a weak maximum of the other two. -/
theorem loamy_unreachable (sand clay silt : ℚ) :
    (classifySoilFractions sand clay silt = "Sandy" ∨
     classifySoilFractions sand clay silt = "Clay" ∨
     classifySoilFractions sand clay silt = "Silty") ∧
    classifySoilFractions sand clay silt ≠ "Loamy" := by
  refine ⟨?_, classify_ne_loamy sand clay silt⟩
  unfold classifySoilFractions
  split_ifs with h1 h2 h3
  · exact Or.inl rfl
  · exact Or.inr (Or.inl rfl)
  · exact Or.inr (Or.inr rfl)
  · rcases some_weak_max sand clay silt with h | h | h
    · exact absurd h h1
    · exact absurd h h2
    · exact absurd h h3

/-- Claim C10 witness: a concrete sample of the unreachability statement. -/
theorem loamy_unreachable_witness :
    classifySoilFractions 10 20 30 ≠ "Loamy" :=
  (loamy_unreachable 10 20 30).2

end Agri
